import Mathlib

/-
Verification of the Scarlett USB control engine (universal-scarlette-gui).

Shallow embedding of the Rust sources:
  crates/scarlett-usb/src/firmware.rs      (firmware container parser)
  crates/scarlett-usb/src/gen4_fcp.rs      (FCP protocol engine, Gen 4)
  crates/scarlett-usb/src/gen3_protocol.rs (Scarlett2 protocol engine, Gen 2/3)
  crates/scarlett-usb/src/transport.rs     (transport abstraction)
  crates/scarlett-usb/src/detection.rs     (hotplug monitor scan diff)
  crates/scarlett-core/src/device.rs       (device identity tables)
  crates/scarlett-core/src/error.rs        (error taxonomy)

Bytes are modelled as Nat (values < 256 where produced by the code),
machine integers as Nat/Int with explicit reduction mod 2^w at the points
where the Rust code truncates or wraps.  File I/O is modelled by passing
the file's byte content; USB transfers are modelled by a transport oracle
that answers each control transfer, together with an explicit event trace
recording every transfer issued.
-/

namespace Scarlett

/-! ## Byte-level helpers -/

/-- Big-endian u16 read at index `i` (models `u16::from_be_bytes`). -/
def readU16be (b : List Nat) (i : Nat) : Nat :=
  256 * b.getD i 0 + b.getD (i + 1) 0

/-- Big-endian u32 read at index `i` (models `u32::from_be_bytes`). -/
def readU32be (b : List Nat) (i : Nat) : Nat :=
  16777216 * b.getD i 0 + 65536 * b.getD (i + 1) 0 +
    256 * b.getD (i + 2) 0 + b.getD (i + 3) 0

/-- Little-endian bytes of a u16 (models `u16::to_le_bytes`). -/
def u16le (x : Nat) : List Nat := [x % 256, x / 256 % 256]

/-- Little-endian bytes of a u32 (models `u32::to_le_bytes`). -/
def u32le (x : Nat) : List Nat :=
  [x % 256, x / 256 % 256, x / 65536 % 256, x / 16777216 % 256]

/-- Big-endian bytes of a u32. -/
def u32be (x : Nat) : List Nat :=
  [x / 16777216 % 256, x / 65536 % 256, x / 256 % 256, x % 256]

/-- Big-endian bytes of a u64. -/
def u64be (x : Nat) : List Nat :=
  [x / 72057594037927936 % 256, x / 281474976710656 % 256,
   x / 1099511627776 % 256, x / 4294967296 % 256,
   x / 16777216 % 256, x / 65536 % 256, x / 256 % 256, x % 256]

/-- Two's-complement reading of one byte as `i8` widened to `i32`. -/
def toI8 (b : Nat) : Int := if b < 128 then (b : Int) else (b : Int) - 256

/-- Two's-complement reading of a 16-bit value as `i16` widened to `i32`. -/
def toI16 (n : Nat) : Int := if n < 32768 then (n : Int) else (n : Int) - 65536

/-- Two's-complement reading of a 32-bit value as `i32`. -/
def toI32 (n : Nat) : Int :=
  if n < 2147483648 then (n : Int) else (n : Int) - 4294967296

/-- Truncation of an `i32` to its low 8 bits (models `value as u8`). -/
def intToU8 (v : Int) : Nat := (v % 256).toNat

/-- Truncation of an `i32` to its low 16 bits (models `value as i16` + LE bytes). -/
def intToU16 (v : Int) : Nat := (v % 65536).toNat

/-- Truncation of an `i32` to its low 32 bits. -/
def intToU32 (v : Int) : Nat := (v % 4294967296).toNat

/-- Wrap an integer into the `i32` range (two's complement, the release
semantics of overflowing i32 arithmetic; debug builds panic instead). -/
def wrapI32 (v : Int) : Int :=
  let m := v % 4294967296
  if m < 2147483648 then m else m - 4294967296

/-! ## SHA-256

The firmware parser verifies a SHA-256 digest (`sha2` crate).  The hash is
an external library; it is embedded here directly from FIPS 180-4 as an
executable function on byte lists. -/

/-- 2^32, the word modulus of SHA-256. -/
def w32 : Nat := 4294967296

/-- Addition mod 2^32. -/
def add32 (a b : Nat) : Nat := (a + b) % w32

/-- Right rotation of a 32-bit word. -/
def rotr32 (x n : Nat) : Nat := ((x >>> n) ||| (x <<< (32 - n))) % w32

/-- Bitwise complement of a 32-bit word. -/
def not32 (x : Nat) : Nat := 4294967295 - x

/-- SHA-256 Ch function. -/
def shaCh (e f g : Nat) : Nat := (e &&& f) ^^^ (not32 e &&& g)

/-- SHA-256 Maj function. -/
def shaMaj (a b c : Nat) : Nat := (a &&& b) ^^^ (a &&& c) ^^^ (b &&& c)

/-- SHA-256 big sigma 0. -/
def bsig0 (x : Nat) : Nat := rotr32 x 2 ^^^ rotr32 x 13 ^^^ rotr32 x 22

/-- SHA-256 big sigma 1. -/
def bsig1 (x : Nat) : Nat := rotr32 x 6 ^^^ rotr32 x 11 ^^^ rotr32 x 25

/-- SHA-256 small sigma 0. -/
def ssig0 (x : Nat) : Nat := rotr32 x 7 ^^^ rotr32 x 18 ^^^ (x >>> 3)

/-- SHA-256 small sigma 1. -/
def ssig1 (x : Nat) : Nat := rotr32 x 17 ^^^ rotr32 x 19 ^^^ (x >>> 10)

/-- SHA-256 round constants (FIPS 180-4: fractional parts of the cube
roots of the first 64 primes), written in decimal. -/
def shaK : List Nat :=
  [1116352408, 1899447441, 3049323471, 3921009573,
   961987163, 1508970993, 2453635748, 2870763221,
   3624381080, 310598401, 607225278, 1426881987,
   1925078388, 2162078206, 2614888103, 3248222580,
   3835390401, 4022224774, 264347078, 604807628,
   770255983, 1249150122, 1555081692, 1996064986,
   2554220882, 2821834349, 2952996808, 3210313671,
   3336571891, 3584528711, 113926993, 338241895,
   666307205, 773529912, 1294757372, 1396182291,
   1695183700, 1986661051, 2177026350, 2456956037,
   2730485921, 2820302411, 3259730800, 3345764771,
   3516065817, 3600352804, 4094571909, 275423344,
   430227734, 506948616, 659060556, 883997877,
   958139571, 1322822218, 1537002063, 1747873779,
   1955562222, 2024104815, 2227730452, 2361852424,
   2428436474, 2756734187, 3204031479, 3329325298]

/-- SHA-256 initial hash value (FIPS 180-4: fractional parts of the
square roots of the first 8 primes), written in decimal. -/
def shaH0 : List Nat :=
  [1779033703, 3144134277, 1013904242, 2773480762,
   1359893119, 2600822924, 528734635, 1541459225]

/-- Group bytes into big-endian 32-bit words. -/
def bytesToWords : List Nat → List Nat
  | a :: b :: c :: d :: rest =>
      (((a * 256 + b) * 256 + c) * 256 + d) :: bytesToWords rest
  | _ => []

/-- Extend the 16-word message schedule to 64 words (`fuel` = 48 extensions). -/
def extendW : Nat → List Nat → List Nat
  | 0, ws => ws
  | fuel + 1, ws =>
      let n := ws.length
      let w := add32 (add32 (ssig1 (ws.getD (n - 2) 0)) (ws.getD (n - 7) 0))
                     (add32 (ssig0 (ws.getD (n - 15) 0)) (ws.getD (n - 16) 0))
      extendW fuel (ws ++ [w])

/-- One SHA-256 compression round; the state is `[a,b,c,d,e,f,g,h]` and
`kw` is the already-combined `K[i] + W[i] mod 2^32`. -/
def shaRound (st : List Nat) (kw : Nat) : List Nat :=
  match st with
  | [a, b, c, d, e, f, g, h] =>
      let t1 := (((h + bsig1 e) % w32 + shaCh e f g) % w32 + kw) % w32
      let t2 := (bsig0 a + shaMaj a b c) % w32
      [(t1 + t2) % w32, a, b, c, (d + t1) % w32, e, f, g]
  | other => other

/-- Compress one 64-byte block into the running hash. -/
def shaCompress (h : List Nat) (block : List Nat) : List Nat :=
  let ws := extendW 48 (bytesToWords block)
  let kws := List.zipWith (fun k w => (k + w) % w32) shaK ws
  let st := kws.foldl shaRound h
  List.zipWith add32 h st

/-- SHA-256 padding: append 0x80, zeros, and the 64-bit big-endian bit length. -/
def shaPad (msg : List Nat) : List Nat :=
  msg ++ 0x80 :: List.replicate ((119 - msg.length % 64) % 64) 0 ++
    u64be (8 * msg.length)

/-- Split a list into 64-byte chunks (`fuel` bounds the recursion). -/
def chunk64 : Nat → List Nat → List (List Nat)
  | 0, _ => []
  | _, [] => []
  | fuel + 1, x :: xs =>
      (x :: xs).take 64 :: chunk64 fuel ((x :: xs).drop 64)

/-- SHA-256 digest of a byte list, as 32 bytes. -/
def sha256 (msg : List Nat) : List Nat :=
  let p := shaPad msg
  let h := (chunk64 p.length p).foldl shaCompress shaH0
  h.foldr (fun w acc => u32be w ++ acc) []

/-! ## Error taxonomy (scarlett-core/src/error.rs) -/

/-- Mirror of `scarlett_core::Error`.  `ioErr` stands for `Error::Io`
(the wrapped `std::io::Error` payload is irrelevant to the claims). -/
inductive Err where
  | usb (msg : String)
  | protocol (msg : String)
  | deviceNotFound
  | invalidParameter (msg : String)
  | notSupported (msg : String)
  | config (msg : String)
  | ioErr
deriving DecidableEq, Repr

instance {ε α : Type} [DecidableEq ε] [DecidableEq α] :
    DecidableEq (Except ε α) := fun a b =>
  match a, b with
  | .ok x, .ok y =>
    if h : x = y then .isTrue (by rw [h])
    else .isFalse (by intro hh; injection hh; exact h (by assumption))
  | .error x, .error y =>
    if h : x = y then .isTrue (by rw [h])
    else .isFalse (by intro hh; injection hh; exact h (by assumption))
  | .ok _, .error _ => .isFalse (by intro hh; exact Except.noConfusion hh)
  | .error _, .ok _ => .isFalse (by intro hh; exact Except.noConfusion hh)

/-- True exactly when the error is the typed protocol-level variant. -/
def Err.isProtocol : Err → Bool
  | .protocol _ => true
  | _ => false

/-- True exactly when an `Except` result is an error. -/
def exceptIsError {α : Type} : Except Err α → Bool
  | .error _ => true
  | .ok _ => false

/-! ## Firmware container parser (scarlett-usb/src/firmware.rs) -/

/-- The ASCII bytes of the magic string "SCARLETT". -/
def firmwareMagic : List Nat := [0x53, 0x43, 0x41, 0x52, 0x4C, 0x45, 0x54, 0x54]

/-- Mirror of `FirmwareHeader`. -/
structure FirmwareHeader where
  magic : List Nat
  usb_vid : Nat
  usb_pid : Nat
  firmware_version : Nat
  firmware_length : Nat
  sha256 : List Nat
deriving DecidableEq, Repr

/-- Mirror of `FirmwareHeader::from_bytes`: length gate, magic gate,
big-endian field decode. -/
def FirmwareHeader.from_bytes (bytes : List Nat) : Except Err FirmwareHeader :=
  if bytes.length < 52 then
    .error (.protocol "Firmware header too short")
  else
    let magic := bytes.take 8
    if magic ≠ firmwareMagic then
      .error (.protocol "Invalid firmware magic")
    else
      .ok { magic := magic
            usb_vid := readU16be bytes 8
            usb_pid := readU16be bytes 10
            firmware_version := readU32be bytes 12
            firmware_length := readU32be bytes 16
            sha256 := (bytes.drop 20).take 32 }

/-- Mirror of `FirmwareHeader::from_file`, with the file modelled by its
byte content: `read_exact` of 52 bytes fails with `Error::Io` (unexpected
EOF) when the file is shorter than 52 bytes. -/
def FirmwareHeader.from_file (content : List Nat) : Except Err FirmwareHeader :=
  if content.length < 52 then .error .ioErr
  else FirmwareHeader.from_bytes (content.take 52)

/-- Mirror of `FirmwareFile` (`data` is the payload after the header). -/
structure FirmwareFile where
  header : FirmwareHeader
  data : List Nat
deriving DecidableEq, Repr

/-- Mirror of `FirmwareFile::from_file`, with the file modelled by its
byte content: header parse, total-size gate, SHA-256 gate. -/
def FirmwareFile.from_file (content : List Nat) : Except Err FirmwareFile :=
  match FirmwareHeader.from_file content with
  | .error e => .error e
  | .ok header =>
    if content.length ≠ 52 + header.firmware_length then
      .error (.protocol "Firmware file size mismatch")
    else
      let data := content.drop 52
      if sha256 data ≠ header.sha256 then
        .error (.protocol "Firmware SHA-256 hash mismatch")
      else
        .ok { header := header, data := data }

/-! ## Transport abstraction (scarlett-usb/src/transport.rs) -/

/-- Mirror of `transport::Direction` (`inp` stands for the reserved word `In`). -/
inductive Direction where
  | out
  | inp
deriving DecidableEq, Repr

/-- Mirror of `transport::ControlTransfer` (timeout in milliseconds;
`ControlTransfer::new` defaults it to one second). -/
structure ControlTransfer where
  request_type : Nat
  request : Nat
  value : Nat
  index : Nat
  direction : Direction
  timeout_ms : Nat
deriving DecidableEq, Repr

/-- Mirror of `ControlTransfer::vendor_out` (request type 0x40). -/
def ControlTransfer.vendor_out (request value index : Nat) : ControlTransfer :=
  ⟨0x40, request, value, index, .out, 1000⟩

/-- Mirror of `ControlTransfer::vendor_in` (request type 0xC0). -/
def ControlTransfer.vendor_in (request value index : Nat) : ControlTransfer :=
  ⟨0xC0, request, value, index, .inp, 1000⟩

/-- Mirror of `ControlTransfer::class_out` (request type 0x21). -/
def ControlTransfer.class_out (request value index : Nat) : ControlTransfer :=
  ⟨0x21, request, value, index, .out, 1000⟩

/-- Mirror of `ControlTransfer::class_in` (request type 0xA1). -/
def ControlTransfer.class_in (request value index : Nat) : ControlTransfer :=
  ⟨0xA1, request, value, index, .inp, 1000⟩

/-- One USB transfer observed on the transport (the traffic trace). -/
inductive UsbEvent where
  | controlOut (t : ControlTransfer) (data : List Nat)
  | controlIn (t : ControlTransfer) (bufLen : Nat)
deriving DecidableEq, Repr

/-- A deterministic transport oracle standing for a `dyn UsbTransport`
implementation: `outResult` answers `control_out` (bytes written or an
error), `inResult` answers `control_in` with the bytes the device
returned into the buffer (truncated to the buffer length by the model). -/
structure UsbTransport where
  outResult : ControlTransfer → List Nat → Except Err Nat
  inResult : ControlTransfer → Nat → Except Err (List Nat)

/-- A transport whose transfers always succeed; `control_in` fills the
whole buffer with zeros (used to exercise concrete runs). -/
def okTransport : UsbTransport where
  outResult := fun _ data => .ok data.length
  inResult := fun _ n => .ok (List.replicate n 0)

/-! ## FCP protocol engine (scarlett-usb/src/gen4_fcp.rs) -/

/-- Mirror of `FcpOpcode` (category << 12 | command). -/
inductive FcpOpcode where
  | Init1
  | CapRead
  | Init2
  | Reboot
  | MeterInfo
  | MeterRead
  | MixInfo
  | MixRead
  | MixWrite
  | MuxInfo
  | MuxRead
  | MuxWrite
  | FlashInfo
  | FlashSegmentInfo
  | FlashErase
  | FlashEraseProgress
  | FlashWrite
  | FlashRead
  | SyncRead
  | EspDfuStart
  | EspDfuWrite
  | DataRead
  | DataWrite
  | DataNotify
  | DevmapInfo
  | DevmapRead
deriving DecidableEq, Repr

/-- Numeric value of an opcode, as declared in the Rust `repr(u16)` enum. -/
def FcpOpcode.toU16 : FcpOpcode → Nat
  | .Init1 => 0x0000
  | .CapRead => 0x0001
  | .Init2 => 0x0002
  | .Reboot => 0x0003
  | .MeterInfo => 0x1000
  | .MeterRead => 0x1001
  | .MixInfo => 0x2000
  | .MixRead => 0x2001
  | .MixWrite => 0x2002
  | .MuxInfo => 0x3000
  | .MuxRead => 0x3001
  | .MuxWrite => 0x3002
  | .FlashInfo => 0x4000
  | .FlashSegmentInfo => 0x4001
  | .FlashErase => 0x4002
  | .FlashEraseProgress => 0x4003
  | .FlashWrite => 0x4004
  | .FlashRead => 0x4005
  | .SyncRead => 0x5004
  | .EspDfuStart => 0x6000
  | .EspDfuWrite => 0x6001
  | .DataRead => 0x7000
  | .DataWrite => 0x7001
  | .DataNotify => 0x7002
  | .DevmapInfo => 0x700c
  | .DevmapRead => 0x700d

/-- Mutable state of `FcpProtocol` (the owned transport is passed
separately to each operation): `initialized` gate, 16-bit `seq_num`,
USB `interface_num`. -/
structure FcpState where
  initialized : Bool
  seq_num : Nat
  interface_num : Nat
deriving DecidableEq, Repr

/-- Mirror of `FcpProtocol::new_with_interface`. -/
def FcpState.new_with_interface (interface_num : Nat) : FcpState :=
  ⟨false, 0, interface_num⟩

/-- Result of an FCP operation: the returned value or error, the state
after the call, and the trace of USB transfers issued during the call. -/
def FcpResult (α : Type) : Type := Except Err α × FcpState × List UsbEvent

/-- Mirror of `FcpProtocol::send_command`: increment the 16-bit sequence
number (wrapping), build the 16-byte little-endian envelope
(opcode, payload length, sequence, zero error, zero pad) followed by the
payload, send it via a class OUT transfer (request 2, index = interface),
and, when a response is expected, read 16 + response_size bytes via a
class IN transfer (request 3); a response shorter than the 16-byte
envelope is a protocol error, otherwise the bytes after the envelope are
returned. -/
def sendCommand (tr : UsbTransport) (st : FcpState) (opcode : FcpOpcode)
    (requestData : List Nat) (responseSize : Nat) : FcpResult (List Nat) :=
  let seq := (st.seq_num + 1) % 65536
  let st1 : FcpState := { st with seq_num := seq }
  let request := u32le opcode.toU16 ++ u16le (requestData.length % 65536) ++
    u16le seq ++ u32le 0 ++ u32le 0 ++ requestData
  let tOut := ControlTransfer.class_out 2 0 st.interface_num
  match tr.outResult tOut request with
  | .error e => (.error e, st1, [.controlOut tOut request])
  | .ok _ =>
    if responseSize = 0 then
      (.ok [], st1, [.controlOut tOut request])
    else
      let tIn := ControlTransfer.class_in 3 0 st.interface_num
      let total := 16 + responseSize
      match tr.inResult tIn total with
      | .error e => (.error e, st1, [.controlOut tOut request, .controlIn tIn total])
      | .ok bytes =>
        let resp := bytes.take total
        if resp.length < 16 then
          (.error (.protocol "Response too short"), st1,
            [.controlOut tOut request, .controlIn tIn total])
        else
          (.ok (resp.drop 16), st1,
            [.controlOut tOut request, .controlIn tIn total])

/-- Mirror of `FcpProtocol::init`: Init1 with empty payload expecting a
24-byte reply, then Init2 with empty payload expecting an 84-byte reply;
the firmware-version extraction from bytes 8..12 of the second reply is
log-only in the source.  Only when both steps succeed is `initialized`
set. -/
def fcpInit (tr : UsbTransport) (st : FcpState) : FcpResult (List Nat × List Nat) :=
  match sendCommand tr st .Init1 [] 24 with
  | (.error e, st1, ev1) => (.error e, st1, ev1)
  | (.ok r0, st1, ev1) =>
    match sendCommand tr st1 .Init2 [] 84 with
    | (.error e, st2, ev2) => (.error e, st2, ev1 ++ ev2)
    | (.ok r2, st2, ev2) =>
      (.ok (r0, r2), { st2 with initialized := true }, ev1 ++ ev2)

/-- Parse consecutive little-endian u32 values (`chunks_exact(4)` drops a
partial trailing chunk). -/
def parseU32leChunks : List Nat → List Nat
  | a :: b :: c :: d :: rest =>
      (a + 256 * (b + 256 * (c + 256 * d))) :: parseU32leChunks rest
  | _ => []

/-- Mirror of `FcpProtocol::read_meters`. -/
def read_meters (tr : UsbTransport) (st : FcpState) (count : Nat) :
    FcpResult (List Nat) :=
  if st.initialized = false then
    (.error (.protocol "FCP not initialized"), st, [])
  else
    let request := u16le 0 ++ u16le count ++ u32le 0
    match sendCommand tr st .MeterRead request (count * 4 % 65536) with
    | (.error e, st1, ev) => (.error e, st1, ev)
    | (.ok resp, st1, ev) => (.ok (parseU32leChunks resp), st1, ev)

/-- Mirror of `FcpProtocol::read_mix_info`. -/
def read_mix_info (tr : UsbTransport) (st : FcpState) : FcpResult (Nat × Nat) :=
  if st.initialized = false then
    (.error (.protocol "FCP not initialized"), st, [])
  else
    match sendCommand tr st .MixInfo [] 8 with
    | (.error e, st1, ev) => (.error e, st1, ev)
    | (.ok resp, st1, ev) =>
      if resp.length < 2 then
        (.error (.protocol "Mix info response too short"), st1, ev)
      else
        (.ok (resp.getD 0 0, resp.getD 1 0), st1, ev)

/-- Mirror of `FcpProtocol::read_data`: the size check sits after the
transfer, in the match that decodes the response. -/
def read_data (tr : UsbTransport) (st : FcpState) (offset size : Nat) :
    FcpResult Int :=
  if st.initialized = false then
    (.error (.protocol "FCP not initialized"), st, [])
  else
    let request := u32le offset ++ u32le size
    match sendCommand tr st .DataRead request size with
    | (.error e, st1, ev) => (.error e, st1, ev)
    | (.ok resp, st1, ev) =>
      if resp.length < size then
        (.error (.protocol "Data read response too short"), st1, ev)
      else if size = 1 then
        (.ok (toI8 (resp.getD 0 0)), st1, ev)
      else if size = 2 then
        (.ok (toI16 (resp.getD 0 0 + 256 * resp.getD 1 0)), st1, ev)
      else if size = 4 then
        (.ok (toI32 (resp.getD 0 0 + 256 * (resp.getD 1 0 + 256 * (resp.getD 2 0 + 256 * resp.getD 3 0)))), st1, ev)
      else
        (.error (.protocol "Invalid data size"), st1, ev)

/-- Mirror of `FcpProtocol::write_data`: the size check sits before
`send_command`, so an invalid size issues no transfer. -/
def write_data (tr : UsbTransport) (st : FcpState) (offset size : Nat)
    (value : Int) : FcpResult Unit :=
  if st.initialized = false then
    (.error (.protocol "FCP not initialized"), st, [])
  else
    let request := u32le offset ++ u32le size
    if size = 1 then
      match sendCommand tr st .DataWrite (request ++ [intToU8 value]) 0 with
      | (.error e, st1, ev) => (.error e, st1, ev)
      | (.ok _, st1, ev) => (.ok (), st1, ev)
    else if size = 2 then
      match sendCommand tr st .DataWrite (request ++ u16le (intToU16 value)) 0 with
      | (.error e, st1, ev) => (.error e, st1, ev)
      | (.ok _, st1, ev) => (.ok (), st1, ev)
    else if size = 4 then
      match sendCommand tr st .DataWrite (request ++ u32le (intToU32 value)) 0 with
      | (.error e, st1, ev) => (.error e, st1, ev)
      | (.ok _, st1, ev) => (.ok (), st1, ev)
    else
      (.error (.protocol "Invalid data size"), st, [])

/-- `FcpProtocol::VOLUME_BIAS` (0 dB = device value 127). -/
def VOLUME_BIAS : Int := 127

/-- `FcpProtocol::LINE_OUT_VOLUME_OFFSET`. -/
def LINE_OUT_VOLUME_OFFSET : Nat := 0x34

/-- `FcpProtocol::MUTE_SWITCH_OFFSET`. -/
def MUTE_SWITCH_OFFSET : Nat := 0x5c

/-- Mirror of `FcpProtocol::get_volume`. -/
def get_volume (tr : UsbTransport) (st : FcpState) (output_index : Nat) :
    FcpResult Int :=
  if st.initialized = false then
    (.error (.protocol "FCP not initialized"), st, [])
  else
    let offset := LINE_OUT_VOLUME_OFFSET + output_index * 2
    match read_data tr st offset 2 with
    | (.error e, st1, ev) => (.error e, st1, ev)
    | (.ok raw, st1, ev) => (.ok (raw - VOLUME_BIAS), st1, ev)

/-- Mirror of `FcpProtocol::set_volume`: the requested dB is clamped to
[-127, 0] before conversion and write. -/
def set_volume (tr : UsbTransport) (st : FcpState) (output_index : Nat)
    (volume_db : Int) : FcpResult Unit :=
  if st.initialized = false then
    (.error (.protocol "FCP not initialized"), st, [])
  else
    let clamped := min (max volume_db (-VOLUME_BIAS)) 0
    let device_value := clamped + VOLUME_BIAS
    let offset := LINE_OUT_VOLUME_OFFSET + output_index * 2
    write_data tr st offset 2 device_value

/-- Mirror of `FcpProtocol::adjust_volume`.  The source computes
`current + delta_db` in i32, which wraps at 32 bits in release builds
(debug builds panic on overflow); the wrap is modelled explicitly. -/
def adjust_volume (tr : UsbTransport) (st : FcpState) (output_index : Nat)
    (delta_db : Int) : FcpResult Int :=
  match get_volume tr st output_index with
  | (.error e, st1, ev) => (.error e, st1, ev)
  | (.ok current, st1, ev1) =>
    let new_volume := min (max (wrapI32 (current + delta_db)) (-VOLUME_BIAS)) 0
    match set_volume tr st1 output_index new_volume with
    | (.error e, st2, ev2) => (.error e, st2, ev1 ++ ev2)
    | (.ok _, st2, ev2) => (.ok new_volume, st2, ev1 ++ ev2)

/-- Mirror of `FcpProtocol::get_mute`. -/
def get_mute (tr : UsbTransport) (st : FcpState) (output_index : Nat) :
    FcpResult Bool :=
  if st.initialized = false then
    (.error (.protocol "FCP not initialized"), st, [])
  else
    let offset := MUTE_SWITCH_OFFSET + output_index
    match read_data tr st offset 1 with
    | (.error e, st1, ev) => (.error e, st1, ev)
    | (.ok raw, st1, ev) => (.ok (raw ≠ 0), st1, ev)

/-- Mirror of `FcpProtocol::set_mute`. -/
def set_mute (tr : UsbTransport) (st : FcpState) (output_index : Nat)
    (muted : Bool) : FcpResult Unit :=
  if st.initialized = false then
    (.error (.protocol "FCP not initialized"), st, [])
  else
    let offset := MUTE_SWITCH_OFFSET + output_index
    write_data tr st offset 1 (if muted then 1 else 0)

/-- Mirror of `FcpProtocol::toggle_mute`. -/
def toggle_mute (tr : UsbTransport) (st : FcpState) (output_index : Nat) :
    FcpResult Bool :=
  match get_mute tr st output_index with
  | (.error e, st1, ev) => (.error e, st1, ev)
  | (.ok current, st1, ev1) =>
    match set_mute tr st1 output_index (!current) with
    | (.error e, st2, ev2) => (.error e, st2, ev1 ++ ev2)
    | (.ok _, st2, ev2) => (.ok (!current), st2, ev1 ++ ev2)

/-! ## Scarlett2 protocol engine (scarlett-usb/src/gen3_protocol.rs) -/

/-- `SCARLETT2_USB_CMD_REQ`. -/
def SCARLETT2_USB_CMD_REQ : Nat := 0x02

/-- `SCARLETT2_USB_CMD_RESP`. -/
def SCARLETT2_USB_CMD_RESP : Nat := 0x03

/-- Mirror of `Scarlett2Command` numeric codes. -/
inductive Scarlett2Command where
  | GetMeterLevels
  | GetConfig
  | SetConfig
  | GetMixer
  | SetMixer
  | GetRouting
  | SetRouting
deriving DecidableEq, Repr

/-- Numeric value of a Scarlett2 command, as in the Rust `repr(u16)` enum. -/
def Scarlett2Command.toU16 : Scarlett2Command → Nat
  | .GetMeterLevels => 0x1001
  | .GetConfig => 0x1002
  | .SetConfig => 0x1003
  | .GetMixer => 0x3001
  | .SetMixer => 0x3002
  | .GetRouting => 0x3101
  | .SetRouting => 0x3102

/-- Mutable state of `Scarlett2Protocol`: the 8-bit sequence counter. -/
structure S2State where
  sequence : Nat
deriving DecidableEq, Repr

/-- The device side of the Scarlett2 engine.  In the source,
`control_write` is a placeholder that always returns `Ok(())` (the nusb
transfer is commented out, marked TODO), so writes always succeed here;
`control_read` is likewise a placeholder, so the bytes the device
returns for a `(value, index, length)` read are supplied by this oracle
(the source's placeholder is the constant `Ok(vec![])` oracle). -/
structure S2Transport where
  readResult : Nat → Nat → Nat → Except Err (List Nat)

/-- Mirror of `Scarlett2Protocol::send_command`: wrap-increment the 8-bit
sequence, frame `[REQ, seq, cmd(LE), len(LE)] ++ data`, write it, read up
to 1024 bytes, then validate the response: length at least 4, first byte
`RESP`, echoed sequence equal to the sent sequence, and a payload no
shorter than the declared length; on success return exactly the declared
payload. -/
def s2SendCommand (tr : S2Transport) (st : S2State) (cmd : Scarlett2Command)
    (data : List Nat) : Except Err (List Nat) × S2State :=
  let seq := (st.sequence + 1) % 256
  let st1 : S2State := ⟨seq⟩
  let _request := SCARLETT2_USB_CMD_REQ :: seq :: u16le cmd.toU16 ++
    u16le (data.length % 65536) ++ data
  match tr.readResult 0 0 1024 with
  | .error e => (.error e, st1)
  | .ok response =>
    if response.length < 4 then
      (.error (.protocol "Response too short"), st1)
    else if response.getD 0 0 ≠ SCARLETT2_USB_CMD_RESP then
      (.error (.protocol "Invalid response command"), st1)
    else if response.getD 1 0 ≠ seq then
      (.error (.protocol "Sequence mismatch"), st1)
    else
      let payload_len := response.getD 2 0 + 256 * response.getD 3 0
      if response.length < 4 + payload_len then
        (.error (.protocol "Response payload truncated"), st1)
      else
        (.ok ((response.drop 4).take payload_len), st1)

/-! ## Device identity (scarlett-core/src/device.rs) -/

/-- Mirror of `DeviceGeneration`. -/
inductive DeviceGeneration where
  | Gen1
  | Gen2
  | Gen3
  | Gen4
  | Clarett
  | ClarettPlus
  | Vocaster
deriving DecidableEq, Repr, Fintype

/-- Mirror of `DeviceModel`. -/
inductive DeviceModel where
  | Scarlett6i6Gen1
  | Scarlett8i6Gen1
  | Scarlett18i6Gen1
  | Scarlett18i8Gen1
  | Scarlett18i20Gen1
  | Scarlett6i6Gen2
  | Scarlett18i8Gen2
  | Scarlett18i20Gen2
  | ScarlettSoloGen3
  | Scarlett2i2Gen3
  | Scarlett4i4Gen3
  | Scarlett8i6Gen3
  | Scarlett18i8Gen3
  | Scarlett18i20Gen3
  | ScarlettSoloGen4
  | Scarlett2i2Gen4
  | Scarlett4i4Gen4
  | Scarlett16i16Gen4
  | Scarlett18i16Gen4
  | Scarlett18i20Gen4
  | Clarett2PreUsb
  | Clarett4PreUsb
  | Clarett8PreUsb
  | Clarett2PrePlus
  | Clarett4PrePlus
  | Clarett8PrePlus
  | VocasterOne
  | VocasterTwo
deriving DecidableEq, Repr, Fintype

/-- Mirror of `DeviceModel::generation`. -/
def DeviceModel.generation : DeviceModel → DeviceGeneration
  | .Scarlett6i6Gen1 | .Scarlett8i6Gen1 | .Scarlett18i6Gen1
  | .Scarlett18i8Gen1 | .Scarlett18i20Gen1 => .Gen1
  | .Scarlett6i6Gen2 | .Scarlett18i8Gen2 | .Scarlett18i20Gen2 => .Gen2
  | .ScarlettSoloGen3 | .Scarlett2i2Gen3 | .Scarlett4i4Gen3
  | .Scarlett8i6Gen3 | .Scarlett18i8Gen3 | .Scarlett18i20Gen3 => .Gen3
  | .ScarlettSoloGen4 | .Scarlett2i2Gen4 | .Scarlett4i4Gen4
  | .Scarlett16i16Gen4 | .Scarlett18i16Gen4 | .Scarlett18i20Gen4 => .Gen4
  | .Clarett2PreUsb | .Clarett4PreUsb | .Clarett8PreUsb => .Clarett
  | .Clarett2PrePlus | .Clarett4PrePlus | .Clarett8PrePlus => .ClarettPlus
  | .VocasterOne | .VocasterTwo => .Vocaster

/-- Mirror of `DeviceModel::product_id`. -/
def DeviceModel.product_id : DeviceModel → Nat
  | .Scarlett6i6Gen1 => 0x8203
  | .Scarlett8i6Gen1 => 0x8204
  | .Scarlett18i6Gen1 => 0x8201
  | .Scarlett18i8Gen1 => 0x8202
  | .Scarlett18i20Gen1 => 0x8200
  | .Scarlett6i6Gen2 => 0x8211
  | .Scarlett18i8Gen2 => 0x8210
  | .Scarlett18i20Gen2 => 0x820C
  | .ScarlettSoloGen3 => 0x8215
  | .Scarlett2i2Gen3 => 0x8214
  | .Scarlett4i4Gen3 => 0x8213
  | .Scarlett8i6Gen3 => 0x8212
  | .Scarlett18i8Gen3 => 0x8217
  | .Scarlett18i20Gen3 => 0x8218
  | .ScarlettSoloGen4 => 0x8223
  | .Scarlett2i2Gen4 => 0x8222
  | .Scarlett4i4Gen4 => 0x8221
  | .Scarlett16i16Gen4 => 0x8220
  | .Scarlett18i16Gen4 => 0x821F
  | .Scarlett18i20Gen4 => 0x821E
  | .Clarett2PreUsb => 0x8206
  | .Clarett4PreUsb => 0x8207
  | .Clarett8PreUsb => 0x8208
  | .Clarett2PrePlus => 0x820A
  | .Clarett4PrePlus => 0x820B
  | .Clarett8PrePlus => 0x820C
  | .VocasterOne => 0x8209
  | .VocasterTwo => 0x8219

/-- Mirror of `DeviceModel::from_product_id`. -/
def DeviceModel.from_product_id (pid : Nat) : Option DeviceModel :=
  if pid = 0x8200 then some .Scarlett18i20Gen1
  else if pid = 0x8201 then some .Scarlett18i6Gen1
  else if pid = 0x8202 then some .Scarlett18i8Gen1
  else if pid = 0x8203 then some .Scarlett6i6Gen1
  else if pid = 0x8204 then some .Scarlett8i6Gen1
  else if pid = 0x820C then some .Scarlett18i20Gen2
  else if pid = 0x8210 then some .Scarlett18i8Gen2
  else if pid = 0x8211 then some .Scarlett6i6Gen2
  else if pid = 0x8212 then some .Scarlett8i6Gen3
  else if pid = 0x8213 then some .Scarlett4i4Gen3
  else if pid = 0x8214 then some .Scarlett2i2Gen3
  else if pid = 0x8215 then some .ScarlettSoloGen3
  else if pid = 0x8217 then some .Scarlett18i8Gen3
  else if pid = 0x8218 then some .Scarlett18i20Gen3
  else if pid = 0x821E then some .Scarlett18i20Gen4
  else if pid = 0x821F then some .Scarlett18i16Gen4
  else if pid = 0x8220 then some .Scarlett16i16Gen4
  else if pid = 0x8221 then some .Scarlett4i4Gen4
  else if pid = 0x8222 then some .Scarlett2i2Gen4
  else if pid = 0x8223 then some .ScarlettSoloGen4
  else if pid = 0x8206 then some .Clarett2PreUsb
  else if pid = 0x8207 then some .Clarett4PreUsb
  else if pid = 0x8208 then some .Clarett8PreUsb
  else if pid = 0x820A then some .Clarett2PrePlus
  else if pid = 0x820B then some .Clarett4PrePlus
  else if pid = 0x8209 then some .VocasterOne
  else if pid = 0x8219 then some .VocasterTwo
  else none

/-! ## Hotplug monitor scan diff (scarlett-usb/src/detection.rs) -/

/-- Mirror of `DeviceInfo`. -/
structure DeviceInfo where
  model : DeviceModel
  serial_number : String
  firmware_version : Option String
  usb_path : String
deriving DecidableEq, Repr

/-- Mirror of `HotplugEvent`. -/
inductive HotplugEvent where
  | connected (d : DeviceInfo)
  | disconnected (usb_path : String)
deriving DecidableEq, Repr

/-- One tick of the monitor loop in `start_monitoring`, given the
previous snapshot `current` and the fresh scan `devices`: first a
Connected event for each scanned device whose path token is not in the
previous snapshot (in scan order), then a Disconnected event for each
previous device whose path token vanished (in snapshot order). -/
def tickEvents (current devices : List DeviceInfo) : List HotplugEvent :=
  (devices.filter
      (fun d => !current.any (fun c => c.usb_path == d.usb_path))).map
    HotplugEvent.connected ++
  (current.filter
      (fun c => !devices.any (fun d => d.usb_path == c.usb_path))).map
    (fun c => HotplugEvent.disconnected c.usb_path)

/-! ## Shared helper lemmas -/

/-- An FCP session state that has completed initialization. -/
def fcpReady : FcpState := ⟨true, 0, 0⟩

/-- `send_command` always leaves the session state with the wrap-incremented
sequence number and everything else unchanged, whatever the transport does. -/
theorem sendCommand_state_eq (tr : UsbTransport) (st : FcpState) (op : FcpOpcode)
    (data : List Nat) (n : Nat) :
    (sendCommand tr st op data n).2.1 =
      { st with seq_num := (st.seq_num + 1) % 65536 } := by
  simp only [sendCommand]
  split
  · rfl
  · split
    · rfl
    · split
      · rfl
      · split <;> rfl

/-- `send_command` never changes the `initialized` flag. -/
theorem sendCommand_initialized_eq (tr : UsbTransport) (st : FcpState)
    (op : FcpOpcode) (data : List Nat) (n : Nat) :
    (sendCommand tr st op data n).2.1.initialized = st.initialized := by
  rw [sendCommand_state_eq]

/-! ## C6: product-ID table injectivity -/

/-- C6: the model-to-PID table is injective except that Scarlett 18i20 Gen2
and Clarett+ 8Pre both map to 0x820C; every model outside that pair
round-trips through `from_product_id`; and PID 0x820C resolves to exactly
one of the two colliding models. -/
theorem c6_pid_table_injective_except_0x820C :
    (∀ m1 m2 : DeviceModel, m1.product_id = m2.product_id →
        m1 = m2 ∨
        (m1 = .Scarlett18i20Gen2 ∧ m2 = .Clarett8PrePlus) ∨
        (m1 = .Clarett8PrePlus ∧ m2 = .Scarlett18i20Gen2)) ∧
    (∀ m : DeviceModel, m ≠ .Scarlett18i20Gen2 → m ≠ .Clarett8PrePlus →
        DeviceModel.from_product_id m.product_id = some m) ∧
    (DeviceModel.from_product_id 0x820C = some .Scarlett18i20Gen2 ∨
     DeviceModel.from_product_id 0x820C = some .Clarett8PrePlus) := by
  refine ⟨by decide, by decide, by decide⟩

/-- C6 witness: the colliding pair is reported by the injectivity clause,
and a model outside the pair round-trips. -/
theorem c6_pid_table_injective_except_0x820C_witness :
    (DeviceModel.Scarlett18i20Gen2 = DeviceModel.Clarett8PrePlus ∨
      (DeviceModel.Scarlett18i20Gen2 = DeviceModel.Scarlett18i20Gen2 ∧
       DeviceModel.Clarett8PrePlus = DeviceModel.Clarett8PrePlus) ∨
      (DeviceModel.Scarlett18i20Gen2 = DeviceModel.Clarett8PrePlus ∧
       DeviceModel.Clarett8PrePlus = DeviceModel.Scarlett18i20Gen2)) ∧
    DeviceModel.from_product_id (DeviceModel.product_id .VocasterOne) =
      some .VocasterOne :=
  ⟨c6_pid_table_injective_except_0x820C.1 _ _ (by decide),
   c6_pid_table_injective_except_0x820C.2.1 .VocasterOne (by decide) (by decide)⟩

/-! ## C7: FCP sequence number -/

/-- C7: every `send_command` sets the session counter to the previous
value plus one modulo 2^16 (release/wrapping semantics of `u16`), and the
request envelope carries exactly that value in its sequence field (bytes
6..8, little-endian).  Holds for every starting value including 0xFFFF. -/
theorem c7_fcp_seq_increments_mod_2_16 (tr : UsbTransport) (st : FcpState)
    (op : FcpOpcode) (data : List Nat) (n : Nat) :
    (sendCommand tr st op data n).2.1.seq_num = (st.seq_num + 1) % 65536 ∧
    (∀ t req rest,
        (sendCommand tr st op data n).2.2 = UsbEvent.controlOut t req :: rest →
        (req.drop 6).take 2 = u16le ((st.seq_num + 1) % 65536)) := by
  constructor
  · rw [sendCommand_state_eq]
  · intro t req rest h
    have hreq : req = u32le op.toU16 ++ u16le (data.length % 65536) ++
        u16le ((st.seq_num + 1) % 65536) ++ u32le 0 ++ u32le 0 ++ data := by
      simp only [sendCommand] at h
      split at h
      · simp only [List.cons.injEq, UsbEvent.controlOut.injEq] at h
        exact h.1.2.symm
      · split at h
        · simp only [List.cons.injEq, UsbEvent.controlOut.injEq] at h
          exact h.1.2.symm
        · split at h
          · simp only [List.cons.injEq, UsbEvent.controlOut.injEq] at h
            exact h.1.2.symm
          · split at h <;>
              (simp only [List.cons.injEq, UsbEvent.controlOut.injEq] at h
               exact h.1.2.symm)
    subst hreq
    simp [u32le, u16le]

/-- C7 witness: at the wrap point 0xFFFF the counter goes to 0 and the
envelope's sequence field is the two zero bytes. -/
theorem c7_fcp_seq_increments_mod_2_16_witness :
    (sendCommand okTransport ⟨true, 65535, 0⟩ .DataRead [] 0).2.1.seq_num =
      (65535 + 1) % 65536 ∧
    ((u32le (FcpOpcode.toU16 .DataRead) ++ u16le (([] : List Nat).length % 65536) ++
        u16le ((65535 + 1) % 65536) ++ u32le 0 ++ u32le 0 ++ ([] : List Nat)).drop 6).take 2 =
      u16le ((65535 + 1) % 65536) :=
  ⟨(c7_fcp_seq_increments_mod_2_16 okTransport ⟨true, 65535, 0⟩ .DataRead [] 0).1,
   (c7_fcp_seq_increments_mod_2_16 okTransport ⟨true, 65535, 0⟩ .DataRead [] 0).2
     _ _ _ rfl⟩

/-! ## C2: invalid size rejection -/

/-- C2 counterexample: on an initialized session, `read_data` with the
invalid size 3 does return an error, but only after issuing both the OUT
and the IN control transfer — the transport observes two USB transfers,
refuting "no control transfer is issued" for `read_data`. -/
theorem c2_invalid_size_counterexample :
    exceptIsError (read_data okTransport fcpReady 0 3).1 = true ∧
    (read_data okTransport fcpReady 0 3).2.2.length = 2 := by decide

/-- C2 amended: for a size outside {1,2,4} on an initialized session,
`write_data` rejects before any transfer (empty trace, state untouched),
while `read_data` also returns an error but only after issuing the
request/response transfers. -/
theorem c2_invalid_size_amended (tr : UsbTransport) (st : FcpState)
    (offset size : Nat) (value : Int)
    (h1 : size ≠ 1) (h2 : size ≠ 2) (h4 : size ≠ 4)
    (hinit : st.initialized = true) :
    write_data tr st offset size value =
      (.error (.protocol "Invalid data size"), st, []) ∧
    exceptIsError (read_data tr st offset size).1 = true := by
  constructor
  · simp [write_data, hinit, h1, h2, h4]
  · simp only [read_data, hinit]
    norm_num
    split
    · rfl
    · split
      · rfl
      · simp [h1, h2, h4, exceptIsError]

/-- C2 amended witness at size 3. -/
theorem c2_invalid_size_amended_witness :
    write_data okTransport fcpReady 0 3 5 =
      (.error (.protocol "Invalid data size"), fcpReady, []) ∧
    exceptIsError (read_data okTransport fcpReady 0 3).1 = true :=
  c2_invalid_size_amended okTransport fcpReady 0 3 5
    (by decide) (by decide) (by decide) rfl

/-! ## C8: short firmware input -/

/-- C8 counterexample: parsing a file whose content is shorter than 52
bytes fails with `Error::Io` (the `read_exact` of the header hits EOF),
which is not the typed header-too-short protocol error the claim
requires for the file path. -/
theorem c8_short_input_counterexample :
    FirmwareFile.from_file ([] : List Nat) = .error .ioErr ∧
    Err.isProtocol .ioErr = false := by decide

/-- C8 amended: for any input shorter than 52 bytes, the in-memory parse
`FirmwareHeader::from_bytes` fails with the header-too-short protocol
error (and, being a total function, never panics), while the file paths
`FirmwareHeader::from_file` and `FirmwareFile::from_file` fail with an
I/O (unexpected EOF) error instead. -/
theorem c8_short_input_amended (b : List Nat) (h : b.length < 52) :
    FirmwareHeader.from_bytes b = .error (.protocol "Firmware header too short") ∧
    FirmwareHeader.from_file b = .error .ioErr ∧
    FirmwareFile.from_file b = .error .ioErr := by
  refine ⟨?_, ?_, ?_⟩
  · simp [FirmwareHeader.from_bytes, h]
  · simp [FirmwareHeader.from_file, h]
  · simp [FirmwareFile.from_file, FirmwareHeader.from_file, h]

/-- C8 amended witness on a 3-byte input. -/
theorem c8_short_input_amended_witness :
    FirmwareHeader.from_bytes [0x53, 0x43, 0x41] =
      .error (.protocol "Firmware header too short") ∧
    FirmwareHeader.from_file [0x53, 0x43, 0x41] = .error .ioErr ∧
    FirmwareFile.from_file [0x53, 0x43, 0x41] = .error .ioErr :=
  c8_short_input_amended [0x53, 0x43, 0x41] (by decide)

/-! ## C4: initialization gating -/

/-- C4: while `initialized` is false every data operation fails with the
protocol-state error, returns the state unchanged and issues no USB
transfer; and the session becomes Ready exactly when the two-step
handshake (Init1, empty payload, 24-byte reply; then Init2, empty
payload, 84-byte reply) has both steps succeed. -/
theorem c4_uninitialized_ops_rejected (tr : UsbTransport) (st : FcpState)
    (count offset size idx : Nat) (value db : Int) (muted : Bool)
    (h : st.initialized = false) :
    read_meters tr st count = (.error (.protocol "FCP not initialized"), st, []) ∧
    read_mix_info tr st = (.error (.protocol "FCP not initialized"), st, []) ∧
    read_data tr st offset size = (.error (.protocol "FCP not initialized"), st, []) ∧
    write_data tr st offset size value = (.error (.protocol "FCP not initialized"), st, []) ∧
    get_volume tr st idx = (.error (.protocol "FCP not initialized"), st, []) ∧
    set_volume tr st idx db = (.error (.protocol "FCP not initialized"), st, []) ∧
    get_mute tr st idx = (.error (.protocol "FCP not initialized"), st, []) ∧
    set_mute tr st idx muted = (.error (.protocol "FCP not initialized"), st, []) ∧
    ((fcpInit tr st).2.1.initialized = true ↔
      exceptIsError (sendCommand tr st .Init1 [] 24).1 = false ∧
      exceptIsError
        (sendCommand tr (sendCommand tr st .Init1 [] 24).2.1 .Init2 [] 84).1 =
        false) := by
  refine ⟨by simp [read_meters, h], by simp [read_mix_info, h],
    by simp [read_data, h], by simp [write_data, h], by simp [get_volume, h],
    by simp [set_volume, h], by simp [get_mute, h], by simp [set_mute, h], ?_⟩
  rcases h1 : sendCommand tr st .Init1 [] 24 with ⟨r1, st1, ev1⟩
  have hst1 : st1.initialized = false := by
    have hs := sendCommand_initialized_eq tr st .Init1 [] 24
    rw [h1] at hs
    rw [hs, h]
  cases r1 with
  | error e => simp [fcpInit, h1, exceptIsError, hst1]
  | ok r1v =>
    rcases h2 : sendCommand tr st1 .Init2 [] 84 with ⟨r2, st2, ev2⟩
    have hst2 : st2.initialized = false := by
      have hs := sendCommand_initialized_eq tr st1 .Init2 [] 84
      rw [h2] at hs
      rw [hs, hst1]
    cases r2 with
    | error e => simp [fcpInit, h1, h2, exceptIsError, hst2]
    | ok r2v => simp [fcpInit, h1, h2, exceptIsError]

/-- C4 witness: a freshly constructed session rejects every data
operation, and with an always-succeeding transport the handshake flips it
to Ready. -/
theorem c4_uninitialized_ops_rejected_witness :
    read_meters okTransport (FcpState.new_with_interface 0) 4 =
      (.error (.protocol "FCP not initialized"), FcpState.new_with_interface 0, []) ∧
    read_mix_info okTransport (FcpState.new_with_interface 0) =
      (.error (.protocol "FCP not initialized"), FcpState.new_with_interface 0, []) ∧
    read_data okTransport (FcpState.new_with_interface 0) 0 2 =
      (.error (.protocol "FCP not initialized"), FcpState.new_with_interface 0, []) ∧
    write_data okTransport (FcpState.new_with_interface 0) 0 2 1 =
      (.error (.protocol "FCP not initialized"), FcpState.new_with_interface 0, []) ∧
    get_volume okTransport (FcpState.new_with_interface 0) 0 =
      (.error (.protocol "FCP not initialized"), FcpState.new_with_interface 0, []) ∧
    set_volume okTransport (FcpState.new_with_interface 0) 0 (-3) =
      (.error (.protocol "FCP not initialized"), FcpState.new_with_interface 0, []) ∧
    get_mute okTransport (FcpState.new_with_interface 0) 0 =
      (.error (.protocol "FCP not initialized"), FcpState.new_with_interface 0, []) ∧
    set_mute okTransport (FcpState.new_with_interface 0) 0 true =
      (.error (.protocol "FCP not initialized"), FcpState.new_with_interface 0, []) ∧
    ((fcpInit okTransport (FcpState.new_with_interface 0)).2.1.initialized = true ↔
      exceptIsError
        (sendCommand okTransport (FcpState.new_with_interface 0) .Init1 [] 24).1 =
        false ∧
      exceptIsError
        (sendCommand okTransport
          (sendCommand okTransport (FcpState.new_with_interface 0) .Init1 [] 24).2.1
          .Init2 [] 84).1 = false) :=
  c4_uninitialized_ops_rejected okTransport (FcpState.new_with_interface 0)
    4 0 2 0 1 (-3) true rfl

/-! ## C10: volume clamping -/

/-- A transport whose `control_in` answers every read with a device
value of 128 in the two bytes after the 16-byte envelope (so the current
volume reads as 128 - 127 = 1 dB). -/
def volTransport : UsbTransport where
  outResult := fun _ data => .ok data.length
  inResult := fun _ n => .ok (List.replicate 16 0 ++ [128, 0] ++ List.replicate (n - 18) 0)

/-- Wrapping is the identity on sums that stay inside the i32 range. -/
theorem wrapI32_eq_self (v : Int) (hlo : -2147483648 ≤ v)
    (hhi : v < 2147483648) : wrapI32 v = v := by
  simp only [wrapI32]
  split_ifs <;> omega

/-- C10 counterexample: with the current volume at 1 dB (device raw
value 128), adjusting by delta = i32::MAX = 2147483647 wraps the i32 sum
to -2^31, so the call succeeds and returns -127, whereas
clamp(current + delta, -127, 0) over the integers is 0 — the claim's
"returns exactly clamp(currentVolume + delta)" fails at this delta. -/
theorem c10_overflow_counterexample :
    (adjust_volume volTransport ⟨true, 3, 0⟩ 0 2147483647).1 = .ok (-127) ∧
    (get_volume volTransport ⟨true, 3, 0⟩ 0).1 = .ok 1 ∧
    ¬((-127 : Int) = min (max (1 + 2147483647) (-127)) 0) := by decide

/-- C10 amended: `set_volume` behaves identically on a requested dB and
on its clamp into [-127, 0] (out-of-range requests are not errors), and
a successful `adjust_volume` returns exactly the clamp of the 32-bit
wrapped sum of the current volume and the delta — equal to
clamp(current + delta, -127, 0) whenever the sum does not overflow i32 —
hence always a value in [-127, 0]. -/
theorem c10_volume_clamped_amended (tr : UsbTransport) (st : FcpState)
    (idx : Nat) (db delta : Int) :
    set_volume tr st idx db = set_volume tr st idx (min (max db (-127)) 0) ∧
    (∀ r : Int, (adjust_volume tr st idx delta).1 = .ok r →
      ∃ cur : Int, (get_volume tr st idx).1 = .ok cur ∧
        r = min (max (wrapI32 (cur + delta)) (-127)) 0 ∧
        (-127 : Int) ≤ r ∧ r ≤ 0 ∧
        (-2147483648 ≤ cur + delta → cur + delta < 2147483648 →
          r = min (max (cur + delta) (-127)) 0)) := by
  constructor
  · by_cases hinit : st.initialized = false
    · simp [set_volume, hinit]
    · have hc : min (max (min (max db (-127)) 0) (-127)) 0 =
          min (max db (-127)) 0 := by
        rcases le_total db (-127) with hle | hle <;>
          rcases le_total db 0 with hle2 | hle2 <;>
            simp [min_def, max_def] <;> split_ifs <;> omega
      simp only [set_volume, hinit, VOLUME_BIAS, if_false]
      rw [show (-(127 : Int)) = (-127 : Int) by norm_num] at hc ⊢
      rw [hc]
  · intro r hr
    rcases hg : get_volume tr st idx with ⟨g, st1, ev1⟩
    cases g with
    | error e => simp [adjust_volume, hg] at hr
    | ok cur =>
      rcases hs : set_volume tr st1 idx
          (min (max (wrapI32 (cur + delta)) (-VOLUME_BIAS)) 0) with ⟨s, st2, ev2⟩
      cases s with
      | error e =>
        simp only [adjust_volume, hg, hs] at hr
        exact absurd hr (by simp)
      | ok u =>
        simp only [adjust_volume, hg, hs] at hr
        have hru : r = min (max (wrapI32 (cur + delta)) (-VOLUME_BIAS)) 0 := by
          injection hr.symm
        refine ⟨cur, by simp [hg], ?_, ?_, ?_, ?_⟩
        · rw [hru]
          norm_num [VOLUME_BIAS]
        · rw [hru]
          simp only [VOLUME_BIAS, min_def, max_def]
          split_ifs <;> omega
        · rw [hru]
          simp only [VOLUME_BIAS, min_def, max_def]
          split_ifs <;> omega
        · intro hlo hhi
          rw [hru, wrapI32_eq_self _ hlo hhi]
          norm_num [VOLUME_BIAS]

/-- C10 amended witness: with a zero-filled transport the current volume
reads as -127 dB; adjusting by +5 succeeds and returns -122, the clamp
of the (non-overflowing, hence unwrapped) sum -127 + 5. -/
theorem c10_volume_clamped_amended_witness :
    ∃ cur : Int, (get_volume okTransport ⟨true, 3, 0⟩ 0).1 = .ok cur ∧
      (-122 : Int) = min (max (wrapI32 (cur + 5)) (-127)) 0 ∧
      (-127 : Int) ≤ -122 ∧ (-122 : Int) ≤ 0 ∧
      (-2147483648 ≤ cur + 5 → cur + 5 < 2147483648 →
        (-122 : Int) = min (max (cur + 5) (-127)) 0) :=
  (c10_volume_clamped_amended okTransport ⟨true, 3, 0⟩ 0 0 5).2 (-122) (by decide)

/-! ## C1: firmware parse gates -/

/-- `getD` into a prefix agrees with `getD` into the whole list. -/
theorem getD_take_of_lt (l : List Nat) (n i d : Nat) (h : i < n) :
    (l.take n).getD i d = l.getD i d := by
  simp [List.getElem?_take_of_lt h]

/-- `readU16be` only looks at indices below 52 here. -/
theorem readU16be_take52 (b : List Nat) (i : Nat) (h : i + 1 < 52) :
    readU16be (b.take 52) i = readU16be b i := by
  unfold readU16be
  rw [getD_take_of_lt _ _ _ _ (by omega), getD_take_of_lt _ _ _ _ (by omega)]

/-- `readU32be` only looks at indices below 52 here. -/
theorem readU32be_take52 (b : List Nat) (i : Nat) (h : i + 3 < 52) :
    readU32be (b.take 52) i = readU32be b i := by
  unfold readU32be
  rw [getD_take_of_lt _ _ _ _ (by omega), getD_take_of_lt _ _ _ _ (by omega),
    getD_take_of_lt _ _ _ _ (by omega), getD_take_of_lt _ _ _ _ (by omega)]

/-- Header decode on the first 52 bytes of a long-enough input with good
magic: all big-endian fields decode from the original byte string. -/
theorem from_bytes_take52 (b : List Nat) (hb : 52 ≤ b.length)
    (hm : b.take 8 = firmwareMagic) :
    FirmwareHeader.from_bytes (b.take 52) =
      .ok ⟨b.take 8, readU16be b 8, readU16be b 10, readU32be b 12,
           readU32be b 16, (b.drop 20).take 32⟩ := by
  have hlen : ¬((b.take 52).length < 52) := by
    simp [List.length_take]
    omega
  have ht8 : (b.take 52).take 8 = b.take 8 := by
    rw [List.take_take]
    norm_num
  have hdg : ((b.take 52).drop 20).take 32 = (b.drop 20).take 32 := by
    rw [List.drop_take, List.take_take]
    norm_num
  simp only [FirmwareHeader.from_bytes, hlen, if_false, ht8, hm]
  rw [if_neg (by simp)]
  rw [readU16be_take52 _ _ (by norm_num), readU16be_take52 _ _ (by norm_num),
    readU32be_take52 _ _ (by norm_num), readU32be_take52 _ _ (by norm_num),
    hdg]

/-- Header decode on the first 52 bytes with bad magic fails. -/
theorem from_bytes_take52_badmagic (b : List Nat) (hb : 52 ≤ b.length)
    (hm : b.take 8 ≠ firmwareMagic) :
    FirmwareHeader.from_bytes (b.take 52) =
      .error (.protocol "Invalid firmware magic") := by
  have hlen : ¬((b.take 52).length < 52) := by
    simp [List.length_take]
    omega
  have ht8 : (b.take 52).take 8 = b.take 8 := by
    rw [List.take_take]
    norm_num
  simp only [FirmwareHeader.from_bytes, hlen, if_false, ht8]
  rw [if_pos hm]

/-- C1: parsing a byte string succeeds exactly when all five gates hold
(length at least 52, magic "SCARLETT", fields decode, total length equals
52 plus the declared payload length, SHA-256 of the payload equals the
declared digest), and on success the image's payload is exactly the bytes
after the 52-byte header; nothing partial is ever returned. -/
theorem c1_firmware_parse_iff_gates (b : List Nat) :
    ((∃ img, FirmwareFile.from_file b = .ok img) ↔
      (52 ≤ b.length ∧ b.take 8 = firmwareMagic ∧
        b.length = 52 + readU32be b 16 ∧
        sha256 (b.drop 52) = (b.drop 20).take 32)) ∧
    (∀ img, FirmwareFile.from_file b = .ok img → img.data = b.drop 52) := by
  by_cases hb : b.length < 52
  · refine ⟨⟨?_, ?_⟩, ?_⟩
    · rintro ⟨img, h⟩
      simp [FirmwareFile.from_file, FirmwareHeader.from_file, hb] at h
    · rintro ⟨h52, -⟩
      omega
    · intro img h
      simp [FirmwareFile.from_file, FirmwareHeader.from_file, hb] at h
  · have hb52 : 52 ≤ b.length := by omega
    by_cases hm : b.take 8 = firmwareMagic
    · have hff : FirmwareFile.from_file b =
          (if b.length ≠ 52 + readU32be b 16 then
            .error (.protocol "Firmware file size mismatch")
          else if sha256 (b.drop 52) ≠ (b.drop 20).take 32 then
            .error (.protocol "Firmware SHA-256 hash mismatch")
          else
            .ok ⟨⟨b.take 8, readU16be b 8, readU16be b 10, readU32be b 12,
                  readU32be b 16, (b.drop 20).take 32⟩, b.drop 52⟩) := by
        simp only [FirmwareFile.from_file, FirmwareHeader.from_file, hb,
          if_false, from_bytes_take52 b hb52 hm]
      by_cases hsz : b.length = 52 + readU32be b 16
      · by_cases hsha : sha256 (b.drop 52) = (b.drop 20).take 32
        · refine ⟨⟨?_, ?_⟩, ?_⟩
          · intro _
            exact ⟨hb52, hm, hsz, hsha⟩
          · intro _
            exact ⟨⟨⟨b.take 8, readU16be b 8, readU16be b 10, readU32be b 12,
                readU32be b 16, (b.drop 20).take 32⟩, b.drop 52⟩,
              by rw [hff]; simp [hsz, hsha]⟩
          · intro img h
            rw [hff] at h
            simp only [hsz, hsha] at h
            simp at h
            rw [← h]
        · refine ⟨⟨?_, ?_⟩, ?_⟩
          · rintro ⟨img, h⟩
            rw [hff] at h
            simp [hsz, hsha] at h
          · rintro ⟨-, -, -, h⟩
            exact absurd h hsha
          · intro img h
            rw [hff] at h
            simp [hsz, hsha] at h
      · refine ⟨⟨?_, ?_⟩, ?_⟩
        · rintro ⟨img, h⟩
          rw [hff] at h
          simp [hsz] at h
        · rintro ⟨-, -, h, -⟩
          exact absurd h hsz
        · intro img h
          rw [hff] at h
          simp [hsz] at h
    · have hff : FirmwareFile.from_file b =
          .error (.protocol "Invalid firmware magic") := by
        simp only [FirmwareFile.from_file, FirmwareHeader.from_file, hb,
          if_false, from_bytes_take52_badmagic b hb52 hm]
      refine ⟨⟨?_, ?_⟩, ?_⟩
      · rintro ⟨img, h⟩
        rw [hff] at h
        exact absurd h (by simp)
      · rintro ⟨-, h, -⟩
        exact absurd h hm
      · intro img h
        rw [hff] at h
        simp at h

/-- A well-formed 52-byte firmware image with empty payload: magic, VID
0x1235, PID 0x821E, version 1, payload length 0, digest = SHA-256 of the
empty payload. -/
def exampleFirmware : List Nat :=
  firmwareMagic ++ [0x12, 0x35] ++ [0x82, 0x1E] ++ [0, 0, 0, 1] ++
    [0, 0, 0, 0] ++ sha256 []

/-- C1 witness: the example image parses and its payload is the byte
suffix after the header. -/
theorem c1_firmware_parse_iff_gates_witness :
    ∃ img, FirmwareFile.from_file exampleFirmware = .ok img ∧
      img.data = exampleFirmware.drop 52 := by
  have h := c1_firmware_parse_iff_gates exampleFirmware
  have hg : 52 ≤ exampleFirmware.length ∧
      exampleFirmware.take 8 = firmwareMagic ∧
      exampleFirmware.length = 52 + readU32be exampleFirmware 16 ∧
      sha256 (exampleFirmware.drop 52) =
        (exampleFirmware.drop 20).take 32 := by decide
  obtain ⟨img, himg⟩ := h.1.mpr hg
  exact ⟨img, himg, h.2 img himg⟩

/-! ## C3: Scarlett2 response validation -/

/-- A Scarlett2 device oracle that always answers with the same bytes. -/
def s2ConstOracle (resp : List Nat) : S2Transport := ⟨fun _ _ _ => .ok resp⟩

/-- C3: with the device's reply fixed to `resp`, `send_command` returns a
payload only if `resp` is at least 4 bytes, starts with the RESPONSE
command byte 3, and echoes the sequence sent with this request; and any
violation of those three checks (including a sequence mismatch on an
otherwise well-formed reply) yields a typed protocol error. -/
theorem c3_scarlett2_response_checks (tr : S2Transport) (st : S2State)
    (cmd : Scarlett2Command) (data resp : List Nat)
    (hr : tr.readResult 0 0 1024 = .ok resp) :
    (∀ payload, (s2SendCommand tr st cmd data).1 = .ok payload →
      4 ≤ resp.length ∧ resp.getD 0 0 = SCARLETT2_USB_CMD_RESP ∧
        resp.getD 1 0 = (st.sequence + 1) % 256) ∧
    ((resp.length < 4 ∨ resp.getD 0 0 ≠ SCARLETT2_USB_CMD_RESP ∨
        resp.getD 1 0 ≠ (st.sequence + 1) % 256) →
      ∃ msg, (s2SendCommand tr st cmd data).1 = .error (.protocol msg)) := by
  constructor
  · intro payload hp
    simp only [s2SendCommand, hr] at hp
    split_ifs at hp with h1 h2 h3 h4
    push_neg at h1 h2 h3
    exact ⟨h1, h2, h3⟩
  · intro hviol
    by_cases hl : resp.length < 4
    · refine ⟨"Response too short", ?_⟩
      simp only [s2SendCommand, hr]
      rw [if_pos hl]
    · by_cases hc : resp.getD 0 0 = SCARLETT2_USB_CMD_RESP
      · by_cases hs : resp.getD 1 0 = (st.sequence + 1) % 256
        · rcases hviol with h | h | h
          · exact absurd h hl
          · exact absurd hc h
          · exact absurd hs h
        · refine ⟨"Sequence mismatch", ?_⟩
          simp only [s2SendCommand, hr]
          rw [if_neg hl, if_neg (not_not_intro hc), if_pos hs]
      · refine ⟨"Invalid response command", ?_⟩
        simp only [s2SendCommand, hr]
        rw [if_neg hl, if_pos hc]

/-- C3 witness: a 4-byte reply with the correct RESPONSE command byte but
a wrong echoed sequence (5 instead of 1) is rejected with a protocol
error. -/
theorem c3_scarlett2_response_checks_witness :
    ∃ msg, (s2SendCommand (s2ConstOracle [3, 5, 0, 0]) ⟨0⟩ .GetMixer []).1 =
      .error (.protocol msg) :=
  (c3_scarlett2_response_checks (s2ConstOracle [3, 5, 0, 0]) ⟨0⟩ .GetMixer []
    [3, 5, 0, 0] rfl).2 (by decide)

/-! ## C5: scan-diff events -/

/-- Counting a Connected event in a map of Connected events counts the
underlying device. -/
theorem count_map_connected (l : List DeviceInfo) (d : DeviceInfo) :
    (l.map HotplugEvent.connected).count (HotplugEvent.connected d) =
      l.count d := by
  induction l with
  | nil => rfl
  | cons x xs ih => simp [List.count_cons, ih, beq_iff_eq]

/-- A Connected event never occurs among Disconnected events. -/
theorem count_connected_in_disconnects (l : List DeviceInfo) (d : DeviceInfo) :
    ((l.map fun c => HotplugEvent.disconnected c.usb_path).count
      (HotplugEvent.connected d)) = 0 := by
  rw [List.count_eq_zero]
  simp

/-- A Disconnected event never occurs among Connected events. -/
theorem count_disconnected_in_connects (l : List DeviceInfo) (p : String) :
    ((l.map HotplugEvent.connected).count (HotplugEvent.disconnected p)) = 0 := by
  rw [List.count_eq_zero]
  simp

/-- Counting a Disconnected event in a map of Disconnected events counts
the underlying path token. -/
theorem count_map_disconnected (l : List DeviceInfo) (p : String) :
    ((l.map fun c => HotplugEvent.disconnected c.usb_path).count
      (HotplugEvent.disconnected p)) = (l.map DeviceInfo.usb_path).count p := by
  induction l with
  | nil => rfl
  | cons x xs ih => simp [List.count_cons, ih, beq_iff_eq]

/-- In a duplicate-free list, an element's count in a filtered sublist is
one exactly when it is present and satisfies the predicate. -/
theorem count_filter_nodup {α : Type} [DecidableEq α] (p : α → Bool)
    (l : List α) (hl : l.Nodup) (a : α) :
    (l.filter p).count a = if a ∈ l ∧ p a = true then 1 else 0 := by
  by_cases h : a ∈ l ∧ p a = true
  · rw [if_pos h]
    exact List.count_eq_one_of_mem (hl.filter p) (List.mem_filter.mpr ⟨h.1, h.2⟩)
  · rw [if_neg h]
    rw [List.count_eq_zero]
    intro hmem
    exact h ⟨(List.mem_filter.mp hmem).1, (List.mem_filter.mp hmem).2⟩

/-- The negated `any` test of the monitor loop is exactly non-membership
of the path token in the snapshot's token list. -/
theorem not_any_path_iff (l : List DeviceInfo) (p : String) :
    ((!l.any fun d => d.usb_path == p) = true) ↔
      p ∉ l.map DeviceInfo.usb_path := by
  simp [List.any_eq_true, List.mem_map]

/-- Mapping path tokens commutes with the vanished-token filter. -/
theorem map_path_filter (s l : List DeviceInfo) :
    ((l.filter fun c => !s.any fun d => d.usb_path == c.usb_path).map
      DeviceInfo.usb_path) =
      ((l.map DeviceInfo.usb_path).filter fun t => !s.any fun d => d.usb_path == t) := by
  induction l with
  | nil => rfl
  | cons x xs ih =>
    by_cases hx : (!s.any fun d => d.usb_path == x.usb_path) = true
    · simp only [List.filter_cons, List.map_cons, hx, if_true, List.map_cons, ih]
    · rw [Bool.not_eq_true] at hx
      simp only [List.filter_cons, List.map_cons, hx, Bool.false_eq_true,
        if_false, ih]

/-- C5: for any two snapshots keyed by path token (duplicate-free token
lists, including empty snapshots), one tick emits exactly one Connected
event per device of the new scan whose token was absent before, exactly
one Disconnected event per token that vanished, nothing else, and all
Connected events precede all Disconnected events. -/
theorem c5_scan_diff_events (s1 s2 : List DeviceInfo)
    (h1 : (s1.map DeviceInfo.usb_path).Nodup)
    (h2 : (s2.map DeviceInfo.usb_path).Nodup) :
    (∀ d : DeviceInfo,
        (tickEvents s1 s2).count (HotplugEvent.connected d) =
          if d ∈ s2 ∧ d.usb_path ∉ s1.map DeviceInfo.usb_path then 1 else 0) ∧
    (∀ p : String,
        (tickEvents s1 s2).count (HotplugEvent.disconnected p) =
          if p ∈ s1.map DeviceInfo.usb_path ∧ p ∉ s2.map DeviceInfo.usb_path
            then 1 else 0) ∧
    (∃ connects disconnects : List HotplugEvent,
        tickEvents s1 s2 = connects ++ disconnects ∧
        (∀ e ∈ connects, ∃ d, e = HotplugEvent.connected d) ∧
        (∀ e ∈ disconnects, ∃ q, e = HotplugEvent.disconnected q)) := by
  refine ⟨?_, ?_, ?_⟩
  · intro d
    unfold tickEvents
    rw [List.count_append, count_map_connected, count_connected_in_disconnects,
      Nat.add_zero]
    rw [count_filter_nodup _ _ (List.Nodup.of_map _ h2) d]
    simp only [not_any_path_iff]
  · intro p
    unfold tickEvents
    rw [List.count_append, count_disconnected_in_connects,
      count_map_disconnected, Nat.zero_add]
    rw [map_path_filter]
    rw [count_filter_nodup _ _ h1 p]
    simp only [not_any_path_iff]
  · refine ⟨_, _, rfl, ?_, ?_⟩
    · intro e he
      rcases List.mem_map.mp he with ⟨x, -, rfl⟩
      exact ⟨x, rfl⟩
    · intro e he
      rcases List.mem_map.mp he with ⟨x, -, rfl⟩
      exact ⟨x.usb_path, rfl⟩

/-- A sample device on bus 1 address 1. -/
def devA : DeviceInfo := ⟨.Scarlett2i2Gen4, "A1SERIAL", none, "usb-001-001"⟩

/-- A sample device on bus 1 address 2. -/
def devB : DeviceInfo := ⟨.Scarlett4i4Gen4, "B2SERIAL", none, "usb-001-002"⟩

/-- C5 witness: replacing devA by devB in one tick yields exactly one
Connected for devB and one Disconnected for devA's token. -/
theorem c5_scan_diff_events_witness :
    ((tickEvents [devA] [devB]).count (HotplugEvent.connected devB) =
      if devB ∈ [devB] ∧ devB.usb_path ∉ [devA].map DeviceInfo.usb_path
        then 1 else 0) ∧
    ((tickEvents [devA] [devB]).count (HotplugEvent.disconnected "usb-001-001") =
      if "usb-001-001" ∈ [devA].map DeviceInfo.usb_path ∧
          "usb-001-001" ∉ [devB].map DeviceInfo.usb_path then 1 else 0) :=
  ⟨(c5_scan_diff_events [devA] [devB] (by decide) (by decide)).1 devB,
   (c5_scan_diff_events [devA] [devB] (by decide) (by decide)).2.1 "usb-001-001"⟩

end Scarlett
